import Mathlib

/-!
Verification of the pyhockey query-construction, input-validation and
season-combination core.

The Python sources are shallowly embedded:
* scalars (`str`, `int`, `float`) become the `Scalar` inductive; floats are
  modelled as exact rationals (`ℚ`), and the float `repr` used when a float is
  interpolated into a query string is abstracted by `toString` on `ℚ` (no claim
  depends on float formatting);
* a `QueryValue` (`str | int | float | list[...]`) is a scalar or a list of
  scalars, exactly as in the `QueryValue` type alias of
  `pyhockey/util/query_builder.py`;
* Python dicts (filter mappings, qualifier mappings) become association lists
  with unique keys, preserving insertion order;
* functions that can raise become `Except Err`-valued functions, with one `Err`
  constructor per kind of exception actually raised (`KeyError` on a missing
  lookup, `ValueError` for domain violations, the type-mismatch `ValueError`,
  the date-format `ValueError`, and `IndexError` for `value[0]` on `[]`);
* `construct_query` additionally returns the final state of the caller's
  `column_mapping` (Python passes the dict by reference and
  `validate_date_range_inputs` mutates it with `del`) and a flag recording
  whether the informational season-override notice was printed.
-/

inductive Scalar where
  | str (s : String)
  | int (n : Int)
  | float (q : ℚ)
deriving DecidableEq

inductive QueryValue where
  | scalar (v : Scalar)
  | list (vs : List Scalar)
deriving DecidableEq

/-- The primitive types appearing in the column schemas.  `tDate` stands for
`datetime.date`, which the draft schema in `util/query_builder.py` assigns to
`gameDate`; no embedded scalar is a `datetime.date`. -/
inductive PyType where
  | tStr
  | tInt
  | tFloat
  | tDate
deriving DecidableEq

inductive Err where
  | keyError (column : String)
  | valueError (column : String) (value : QueryValue) (valid : List Scalar)
  | typeError (column : String) (expected : List PyType) (actual : Scalar)
  | formatError (field : String) (received : String)
  | indexError
deriving DecidableEq

/-- Python `isinstance(v, desired_type)` for a scalar against the (possibly
tuple-valued) schema entry. -/
def matchesType (v : Scalar) (tys : List PyType) : Bool :=
  match v with
  | .str _ => tys.contains .tStr
  | .int _ => tys.contains .tInt
  | .float _ => tys.contains .tFloat

/-- Python `==` between scalars: `int`/`float` compare numerically. -/
def pyEq : Scalar → Scalar → Bool
  | .str a, .str b => a == b
  | .int a, .int b => a == b
  | .float a, .float b => a == b
  | .int a, .float b => ((a : ℚ) == b)
  | .float a, .int b => (a == (b : ℚ))
  | _, _ => false

/-- Python `v in l` for a scalar and a list of scalars. -/
def pyMem (v : Scalar) (l : List Scalar) : Bool :=
  l.any (pyEq v)

/-! ### Constants of `pyhockey/util/input_validation.py` -/

def VALID_SITUATIONS : List String := ["all", "5on5", "4on5", "5on4", "other"]

/-- `list(range(2008, 2026))`. -/
def VALID_SEASONS : List Int := (List.range 18).map (fun i => 2008 + Int.ofNat i)

def VALID_TEAMS : List String :=
  ["ANA", "ARI", "ATL", "BOS", "BUF", "CAR", "CBJ", "CGY", "CHI", "COL", "DAL", "DET",
   "EDM", "FLA", "L.A", "LAK", "MIN", "MTL", "N.J", "NJD", "NSH", "NYI", "NYR", "OTT",
   "PHI", "PIT", "S.J", "SEA", "SJS", "STL", "T.B", "TBL", "TOR", "UTA", "VAN", "VGK",
   "WPG", "WSH"]

def VALID_INPUT_VALUES : List (String × List Scalar) :=
  [("season", VALID_SEASONS.map Scalar.int),
   ("team", VALID_TEAMS.map Scalar.str),
   ("situation", VALID_SITUATIONS.map Scalar.str)]

def COLUMN_SCHEMA : List (String × List PyType) :=
  [("name", [.tStr]),
   ("gameID", [.tInt]),
   ("gameDate", [.tStr]),
   ("season", [.tInt]),
   ("team", [.tStr]),
   ("state", [.tStr]),
   ("situation", [.tStr]),
   ("iceTime", [.tInt, .tFloat]),
   ("shotsAgainst", [.tInt]),
   ("goalsAgainst", [.tInt]),
   ("xGoalsAgainst", [.tInt, .tFloat]),
   ("gamesPlayed", [.tInt]),
   ("xGoals", [.tInt, .tFloat]),
   ("goals", [.tInt]),
   ("lowDangerShots", [.tInt]),
   ("mediumDangerShots", [.tInt]),
   ("highDangerShots", [.tInt]),
   ("lowDangerxGoals", [.tInt, .tFloat]),
   ("mediumDangerxGoals", [.tInt, .tFloat]),
   ("highDangerxGoals", [.tInt, .tFloat]),
   ("lowDangerGoals", [.tInt]),
   ("mediumDangerGoals", [.tInt]),
   ("highDangerGoals", [.tInt]),
   ("position", [.tStr]),
   ("primaryAssists", [.tInt]),
   ("secondaryAssists", [.tInt]),
   ("shots", [.tInt]),
   ("individualxGoals", [.tInt, .tFloat]),
   ("goalsFor", [.tInt]),
   ("xGoalsFor", [.tInt, .tFloat]),
   ("xGoalsShare", [.tInt, .tFloat]),
   ("corsiFor", [.tInt]),
   ("corsiAgainst", [.tInt]),
   ("corsiShare", [.tInt, .tFloat]),
   ("xGoalsForPerHour", [.tInt, .tFloat]),
   ("xGoalsAgainstPerHour", [.tInt, .tFloat]),
   ("goalsForPerHour", [.tInt, .tFloat]),
   ("goalsAgainstPerHour", [.tInt, .tFloat]),
   ("pointsPerHour", [.tInt, .tFloat]),
   ("goalsPerHour", [.tInt, .tFloat]),
   ("averageIceTime", [.tInt, .tFloat]),
   ("corsiPercentage", [.tInt, .tFloat])]

/-! ### `pyhockey/util/input_validation.py` -/

/-- `check_input_values` (pyhockey/util/input_validation.py, lines 76-109):
iterates the mapping in insertion order; for every column it looks up
`VALID_INPUT_VALUES[column]` (a missing column raises `KeyError`), then checks
membership for a scalar and `set(...).issubset(...)` for a list, raising a
`ValueError` carrying the offending value and the valid inputs otherwise. -/
def check_input_values : List (String × QueryValue) → Except Err Bool
  | [] => .ok true
  | (column, input_value) :: rest =>
    match List.lookup column VALID_INPUT_VALUES with
    | none => .error (.keyError column)
    | some valid_inputs =>
      let bad : Bool :=
        match input_value with
        | .scalar s => !(pyMem s valid_inputs)
        | .list vs => !(vs.all (fun v => pyMem v valid_inputs))
      if bad then .error (.valueError column input_value valid_inputs)
      else check_input_values rest

/-- First element of a list failing `isinstance(v, desired_type)`. -/
def firstBadElem (tys : List PyType) : List Scalar → Option Scalar
  | [] => none
  | v :: vs => if matchesType v tys then firstBadElem tys vs else some v

/-- `check_input_type` (pyhockey/util/input_validation.py, lines 112-138):
looks up `COLUMN_SCHEMA[column_name]` (KeyError when absent), accepts a
matching scalar, and for a list checks each element, raising a `ValueError`
citing the first offending element. -/
def check_input_type : List (String × QueryValue) → Except Err Bool
  | [] => .ok true
  | (column_name, value) :: rest =>
    match List.lookup column_name COLUMN_SCHEMA with
    | none => .error (.keyError column_name)
    | some desired_type =>
      match value with
      | .scalar s =>
        if matchesType s desired_type then check_input_type rest
        else .error (.typeError column_name desired_type s)
      | .list vs =>
        match firstBadElem desired_type vs with
        | some v => .error (.typeError column_name desired_type v)
        | none => check_input_type rest

/-! ### Date validation (`datetime.strptime(_, "%Y-%m-%d")`) -/

def isLeapYear (y : Nat) : Bool :=
  y % 4 == 0 && (y % 100 != 0 || y % 400 == 0)

def daysInMonth (y m : Nat) : Nat :=
  if m == 2 then (if isLeapYear y then 29 else 28)
  else if m == 4 || m == 6 || m == 9 || m == 11 then 30
  else 31

def digitsToNat (l : List Char) : Nat :=
  l.foldl (fun acc c => acc * 10 + (c.toNat - '0'.toNat)) 0

/-- Naive substring test on character lists. -/
def hasInfix (pat : List Char) : List Char → Bool
  | [] => pat.isEmpty
  | c :: t => pat.isPrefixOf (c :: t) || hasInfix pat t

/-- Split a character list on `'-'` (the fields between the dashes). -/
def splitDash : List Char → List (List Char)
  | [] => [[]]
  | c :: cs =>
    if c = '-' then [] :: splitDash cs
    else
      match splitDash cs with
      | [] => [[c]]
      | h :: t => (c :: h) :: t

/-- CPython's `datetime.strptime(s, "%Y-%m-%d")` succeeds iff: the string is
`Y-M-D` where `Y` is exactly four digits, `M` and `D` are one or two digits
(zero-padding is optional: the month regex is `1[0-2]|0[1-9]|[1-9]`, the day
regex `3[01]|[12]\d|0[1-9]|[1-9]`), nothing is left over, and the resulting
numbers form a real calendar date with year ≥ 1. -/
def validDate (s : String) : Bool :=
  match splitDash s.toList with
  | [ys, ms, ds] =>
    ys.length == 4 && ys.all Char.isDigit &&
    (ms.length == 1 || ms.length == 2) && ms.all Char.isDigit &&
    (ds.length == 1 || ds.length == 2) && ds.all Char.isDigit &&
    (let y := digitsToNat ys
     let m := digitsToNat ms
     let d := digitsToNat ds
     decide (1 ≤ y) && decide (1 ≤ m) && decide (m ≤ 12) &&
     decide (1 ≤ d) && decide (d ≤ daysInMonth y m))
  | _ => false

/-- Modelled from the spec: "a strict `YYYY-MM-DD` calendar-date format" —
four-digit year, two-digit zero-padded month and day, forming a real calendar
date.  Used only to compare the spec's wording with the source's `strptime`
acceptance (`validDate`). -/
def specStrictYMD (s : String) : Bool :=
  match splitDash s.toList with
  | [ys, ms, ds] =>
    ys.length == 4 && ys.all Char.isDigit &&
    ms.length == 2 && ms.all Char.isDigit &&
    ds.length == 2 && ds.all Char.isDigit &&
    (let y := digitsToNat ys
     let m := digitsToNat ms
     let d := digitsToNat ds
     decide (1 ≤ y) && decide (1 ≤ m) && decide (m ≤ 12) &&
     decide (1 ≤ d) && decide (d ≤ daysInMonth y m))
  | _ => false

/-! ### `pyhockey/util/query_builder.py` -/

/-- Python truthiness of a `QueryValue` (`dict.get(key, False)` results). -/
def QueryValue.truthy : QueryValue → Bool
  | .scalar (.str s) => !s.isEmpty
  | .scalar (.int n) => n != 0
  | .scalar (.float q) => q != 0
  | .list vs => !vs.isEmpty

/-- `column_mapping.get(key, False)` interpreted as a truth value. -/
def mappingGetTruthy (m : List (String × QueryValue)) (key : String) : Bool :=
  match List.lookup key m with
  | none => false
  | some v => v.truthy

/-- `qualifiers.get(key, False)` interpreted as a truth value (string values). -/
def qualifiersGetTruthy (q : List (String × String)) (key : String) : Bool :=
  match List.lookup key q with
  | none => false
  | some v => !v.isEmpty

/-- `validate_date_range_inputs` (pyhockey/util/query_builder.py, lines
105-149).  Checks any provided `start_date`/`end_date` against strptime's
`%Y-%m-%d`, raising a `ValueError` naming the field and the received value
otherwise; then, if `season`, `start_date` and `end_date` are all present and
truthy, deletes `season` from the (caller's, shared) column mapping and prints
an informational notice.  Returns the updated mapping together with whether the
notice was printed. -/
def validate_date_range_inputs (column_mapping : List (String × QueryValue))
    (qualifiers : List (String × String)) :
    Except Err (List (String × QueryValue) × Bool) :=
  match
    ((match List.lookup "start_date" qualifiers with
      | some start_date =>
        if validDate start_date then Except.ok ()
        else Except.error (.formatError "start_date" start_date)
      | none => Except.ok ()) : Except Err Unit) with
  | .error e => .error e
  | .ok _ =>
    match
      ((match List.lookup "end_date" qualifiers with
        | some end_date =>
          if validDate end_date then Except.ok ()
          else Except.error (.formatError "end_date" end_date)
        | none => Except.ok ()) : Except Err Unit) with
    | .error e => .error e
    | .ok _ =>
      if mappingGetTruthy column_mapping "season" &&
         qualifiersGetTruthy qualifiers "start_date" &&
         qualifiersGetTruthy qualifiers "end_date" then
        .ok (column_mapping.filter (fun p => p.1 != "season"), true)
      else
        .ok (column_mapping, false)

/-- `str(v)` as interpolated by the f-strings of the query builder.  The float
case abstracts CPython's float `repr` by the rational's `toString`; no claim
depends on it. -/
def pyRepr : Scalar → String
  | .str s => s
  | .int n => toString n
  | .float q => toString q

/-- The condition built for one `(column_name, value)` entry of the column
mapping (pyhockey/util/query_builder.py, lines 48-70).  A list value reads
`value[0]` to pick the quoting branch, which raises `IndexError` on `[]`. -/
def condition_for (column_name : String) (value : QueryValue) : Except Err String :=
  match value with
  | .list [] => .error .indexError
  | .list (v0 :: vs) =>
    let parts :=
      match v0 with
      | .str _ => (v0 :: vs).map (fun v => column_name ++ " = '" ++ pyRepr v ++ "'")
      | _ => (v0 :: vs).map (fun v => column_name ++ " = " ++ pyRepr v)
    .ok ("(" ++ String.intercalate " OR " parts ++ ")")
  | .scalar s =>
    match s with
    | .str _ => .ok (column_name ++ " = '" ++ pyRepr s ++ "'")
    | _ => .ok (column_name ++ " = " ++ pyRepr s)

/-- Result of `construct_query`: the query string, the caller-visible final
state of the `column_mapping` dict (mutated in place by
`validate_date_range_inputs` when the date range overrides `season`), and
whether the informational override notice was printed. -/
structure QueryResult where
  query : String
  column_mapping : List (String × QueryValue)
  notice : Bool
deriving DecidableEq

/-- `construct_query` (pyhockey/util/query_builder.py, lines 18-102).  Runs the
type and value checks, builds the filter conditions in insertion order, then —
only afterwards — handles qualifiers (date validation and the season override,
then the qualifier fragments), joins everything with `" AND "` after
`SELECT * FROM {table} WHERE `, and appends `ORDER BY` when requested.
`qualifiers = some []` models an empty dict, which is falsy in Python. -/
def construct_query (table_name : String)
    (column_mapping : List (String × QueryValue))
    (qualifiers : Option (List (String × String)))
    (order_by : Option (List String)) : Except Err QueryResult :=
  match check_input_type column_mapping with
  | .error e => .error e
  | .ok _ =>
  match check_input_values column_mapping with
  | .error e => .error e
  | .ok _ =>
  match column_mapping.mapM (fun p => condition_for p.1 p.2) with
  | .error e => .error e
  | .ok query_conditions =>
  match
    ((match qualifiers with
      | none => Except.ok (column_mapping, ([] : List String), false)
      | some qs =>
        if qs.isEmpty then Except.ok (column_mapping, ([] : List String), false)
        else
          match
            (if qs.any (fun p => p.1 == "start_date") ||
                qs.any (fun p => p.1 == "end_date") then
              validate_date_range_inputs column_mapping qs
            else Except.ok (column_mapping, false)) with
          | .error e => Except.error e
          | .ok (m, notice) =>
            Except.ok (m, qs.map (fun p =>
              if p.1 == "start_date" then "gameDate >= '" ++ p.2 ++ "'"
              else if p.1 == "end_date" then "gameDate <= '" ++ p.2 ++ "'"
              else p.1 ++ " " ++ p.2), notice)) :
      Except Err (List (String × QueryValue) × List String × Bool)) with
  | .error e => .error e
  | .ok (final_mapping, qual_conditions, notice) =>
    let all_conditions := String.intercalate " AND " (query_conditions ++ qual_conditions)
    let query := "SELECT * FROM " ++ table_name ++ " WHERE " ++ all_conditions
    let query :=
      match order_by with
      | some cols =>
        if cols.isEmpty then query
        else query ++ " ORDER BY " ++ String.intercalate ", " cols
      | none => query
    .ok ⟨query, final_mapping, notice⟩

/-! ### Draft builder (`util/query_builder.py`, top level of the repository)

The repository also contains an earlier iteration of the query builder with its
own copy of the column schema (`gameDate` typed as `datetime.date` there), a
per-value type check, no domain check, no date handling and no `order_by`. -/

/-- The draft's `COLUMN_SCHEMA` differs from the final one only at `gameDate`
(`datetime.date` instead of `str`). -/
def COLUMN_SCHEMA_DRAFT : List (String × List PyType) :=
  COLUMN_SCHEMA.map (fun p => if p.1 == "gameDate" then (p.1, [PyType.tDate]) else p)

/-- `check_input_type` of `util/query_builder.py` (lines 124-155): the
per-value variant, raising a `ValueError` on the first mismatching element. -/
def check_input_type_draft (value : QueryValue) (column_name : String)
    (desired_type : List PyType) : Except Err Bool :=
  match value with
  | .scalar s =>
    if matchesType s desired_type then .ok true
    else .error (.typeError column_name desired_type s)
  | .list vs =>
    match firstBadElem desired_type vs with
    | some v => .error (.typeError column_name desired_type v)
    | none => .ok true

/-- `construct_query` of `util/query_builder.py` (lines 60-121): no domain
check, qualifier fragments appended verbatim after the filter conditions, no
date-range handling, no `ORDER BY`. -/
def construct_query_draft (table_name : String)
    (column_mapping : List (String × QueryValue))
    (qualifiers : Option (List (String × String))) : Except Err String := do
  let query_conditions ← column_mapping.mapM (fun p => do
    match List.lookup p.1 COLUMN_SCHEMA_DRAFT with
    | none => throw (.keyError p.1)
    | some desired_type => do
      _ ← check_input_type_draft p.2 p.1 desired_type
      condition_for p.1 p.2)
  let qual_conditions :=
    match qualifiers with
    | none => []
    | some qs => if qs.isEmpty then [] else qs.map (fun p => p.1 ++ " " ++ p.2)
  pure ("SELECT * FROM " ++ table_name ++ " WHERE " ++
    String.intercalate " AND " (query_conditions ++ qual_conditions))

/-! ### Accessors -/

/-- The filter mapping built by `skater_summaries` in
`pyhockey/skater_summary.py` (lines 35-43): `{'season','team','situation'}`,
with the `team` key deleted when `team == 'ALL'`. -/
def skater_summary_mapping (season team situation : QueryValue) :
    List (String × QueryValue) :=
  let column_mapping := [("season", season), ("team", team), ("situation", situation)]
  if team == .scalar (.str "ALL") then
    column_mapping.filter (fun p => p.1 != "team")
  else column_mapping

/-- The query construction performed by `skater_summaries` in
`pyhockey/skater_summary.py` (lines 35-50). -/
def skater_summary_query (season team : QueryValue) (min_icetime : Int)
    (situation : QueryValue) : Except Err QueryResult :=
  construct_query "skaters" (skater_summary_mapping season team situation)
    (some [("iceTime", ">=" ++ toString min_icetime)]) (some ["team", "season"])

/-- The filter mapping built by `goalie_summaries` in
`pyhockey/goalie_summary.py` (lines 34-42): same shape as the skater one. -/
def goalie_summaries_mapping (season team situation : QueryValue) :
    List (String × QueryValue) :=
  let column_mapping := [("season", season), ("team", team), ("situation", situation)]
  if team == .scalar (.str "ALL") then
    column_mapping.filter (fun p => p.1 != "team")
  else column_mapping

/-- The query construction performed by `goalie_summaries`
(`pyhockey/goalie_summary.py`, lines 34-49). -/
def goalie_summaries_query (season team : QueryValue) (min_games_played : Int)
    (situation : QueryValue) : Except Err QueryResult :=
  construct_query "goalies" (goalie_summaries_mapping season team situation)
    (some [("gamesPlayed", ">=" ++ toString min_games_played)]) (some ["team", "season"])

/-- The filter mapping built by `team_games` (`pyhockey/team_games.py`, lines
50-59): `{'season','team','situation'}` with `season` deleted when `None` and
`team` deleted when `None` or `'ALL'` (deletion preserves the order of the
remaining keys). -/
def team_games_column_mapping (season : Option QueryValue)
    (team situation : QueryValue) : List (String × QueryValue) :=
  (match season with
   | some s => [("season", s)]
   | none => []) ++
  (if team == .scalar (.str "ALL") then [] else [("team", team)]) ++
  [("situation", situation)]

/-- The query construction performed by the draft accessor `skater_summaries`
in `pyhockey/skater_summaries.py` (lines 10-31): a guard on `situation` that
only fires for non-string values outside the valid list, then a call into the
draft builder with the `team` key always kept in the mapping. -/
def skater_summaries_draft (season team situation : QueryValue)
    (min_icetime : Int) : Except Err String :=
  let isStr : Bool := match situation with | .scalar (.str _) => true | _ => false
  let inOptions : Bool :=
    match situation with
    | .scalar (.str s) => VALID_SITUATIONS.contains s
    | _ => false
  if !isStr && !inOptions then
    .error (.valueError "situation" situation (VALID_SITUATIONS.map Scalar.str))
  else
    construct_query_draft "skaters"
      [("season", season), ("team", team), ("situation", situation)]
      (some [("iceTime", ">" ++ toString min_icetime)])

/-! ### Season combiners

`combine_skater_seasons` (`pyhockey/skater_summary.py`, lines 69-141) and
`combine_goalie_seasons` (`pyhockey/goalie_summary.py`, lines 65-134).

Modelling notes, faithful to the source up to the following standard choices:
* rows carry exactly the columns the combiners read or write; numeric columns
  are exact rationals (`ℚ`), so the float identity `x * (60.0 / t)` computed by
  the code coincides with `60 * x / t`;
* `set(df['playerID'])` iterates in an unspecified order; the embedding
  iterates the distinct IDs in first-occurrence order (`List.dedup`).  All
  claims proved below are per-entity and insensitive to this order, and the
  final result is sorted by `(team, playerID)` as in the source anyway;
* the trailing `DataFrame.cast` dtype fixes (`Int16`, `Float32`) do not change
  in-range values and are modelled as the identity;
* Python's `round(x, 2)` (round-half-to-even at two decimals) is `pyRound2`.
-/

/-- `list(set(...)).sort()`: ascending sort of the distinct seasons.  (The
deduplication itself is applied at the call sites, as in the source.) -/
def sortedSeasons (l : List Int) : List Int :=
  List.insertionSort (fun a b => a ≤ b) l

/-- Round half to even, as Python's builtin `round` on an exact value. -/
def roundHalfEven (q : ℚ) : ℤ :=
  if q - ⌊q⌋ = 1 / 2 then (if ⌊q⌋ % 2 = 0 then ⌊q⌋ else ⌊q⌋ + 1)
  else ⌊q + 1 / 2⌋

/-- Python `round(x, 2)`. -/
def pyRound2 (q : ℚ) : ℚ := (roundHalfEven (q * 100) : ℚ) / 100

structure SkaterRow where
  playerID : Int
  season : Int
  name : String
  team : String
  position : String
  situation : String
  gamesPlayed : ℚ
  iceTime : ℚ
  points : ℚ
  goals : ℚ
  xGoalsFor : ℚ
  goalsFor : ℚ
  xGoalsAgainst : ℚ
  goalsAgainst : ℚ
  goalsForPerHour : ℚ
  goalsAgainstPerHour : ℚ
  xGoalsForPerHour : ℚ
  xGoalsAgainstPerHour : ℚ
  pointsPerHour : ℚ
  goalsPerHour : ℚ
  averageIceTime : ℚ
deriving DecidableEq

/-- Output row of the skater combiner: the season column has been cast to
`pl.String`. -/
structure SkaterOutRow where
  playerID : Int
  season : String
  name : String
  team : String
  position : String
  situation : String
  gamesPlayed : ℚ
  iceTime : ℚ
  points : ℚ
  goals : ℚ
  xGoalsFor : ℚ
  goalsFor : ℚ
  xGoalsAgainst : ℚ
  goalsAgainst : ℚ
  goalsForPerHour : ℚ
  goalsAgainstPerHour : ℚ
  xGoalsForPerHour : ℚ
  xGoalsAgainstPerHour : ℚ
  pointsPerHour : ℚ
  goalsPerHour : ℚ
  averageIceTime : ℚ
deriving DecidableEq

/-- `p_df.cast({'season': pl.String})` on one row. -/
def skaterCastSeason (r : SkaterRow) : SkaterOutRow :=
  ⟨r.playerID, toString r.season, r.name, r.team, r.position, r.situation,
   r.gamesPlayed, r.iceTime, r.points, r.goals, r.xGoalsFor, r.goalsFor,
   r.xGoalsAgainst, r.goalsAgainst, r.goalsForPerHour, r.goalsAgainstPerHour,
   r.xGoalsForPerHour, r.xGoalsAgainstPerHour, r.pointsPerHour, r.goalsPerHour,
   r.averageIceTime⟩

/-- `df.filter(pl.col('playerID') == player_id)`. -/
def skater_rows_for (df : List SkaterRow) (pid : Int) : List SkaterRow :=
  df.filter (fun r => r.playerID == pid)

/-- The rows the skater combiner contributes for one `player_id` (the loop body
of `combine_skater_seasons`). -/
def combine_skater_block (df : List SkaterRow) (pid : Int) : List SkaterOutRow :=
  let p := skater_rows_for df pid
  let seasons := sortedSeasons (p.map (fun r => r.season)).dedup
  if seasons.length = 1 then p.map skaterCastSeason
  else
    match p with
    | [] => []
    | r0 :: _ =>
      let total := fun (f : SkaterRow → ℚ) => (p.map f).sum
      let iceTime := total (fun r => r.iceTime)
      let gamesPlayed := total (fun r => r.gamesPlayed)
      let points := total (fun r => r.points)
      let goals := total (fun r => r.goals)
      let xGoalsFor := total (fun r => r.xGoalsFor)
      let goalsFor := total (fun r => r.goalsFor)
      let xGoalsAgainst := total (fun r => r.xGoalsAgainst)
      let goalsAgainst := total (fun r => r.goalsAgainst)
      [{ playerID := pid
         season := String.intercalate "," (seasons.map toString)
         name := r0.name
         team := r0.team
         position := r0.position
         situation := r0.situation
         gamesPlayed := gamesPlayed
         iceTime := iceTime
         points := points
         goals := goals
         xGoalsFor := xGoalsFor
         goalsFor := goalsFor
         xGoalsAgainst := xGoalsAgainst
         goalsAgainst := goalsAgainst
         goalsForPerHour := goalsFor * (60 / iceTime)
         goalsAgainstPerHour := goalsAgainst * (60 / iceTime)
         xGoalsForPerHour := xGoalsFor * (60 / iceTime)
         xGoalsAgainstPerHour := xGoalsAgainst * (60 / iceTime)
         pointsPerHour := points * (60 / iceTime)
         goalsPerHour := goals * (60 / iceTime)
         averageIceTime := pyRound2 (iceTime / gamesPlayed) }]

/-- Order of the final `df.sort(by=['team', 'playerID'])`. -/
def skaterOutOrder (a b : SkaterOutRow) : Prop :=
  a.team < b.team ∨ (a.team = b.team ∧ a.playerID ≤ b.playerID)

instance : DecidableRel skaterOutOrder := fun a b =>
  inferInstanceAs (Decidable (a.team < b.team ∨ (a.team = b.team ∧ a.playerID ≤ b.playerID)))

/-- `combine_skater_seasons` (`pyhockey/skater_summary.py`, lines 69-141). -/
def combine_skater_seasons (df : List SkaterRow) : List SkaterOutRow :=
  List.insertionSort skaterOutOrder
    ((((df.map (fun r => r.playerID)).dedup).map (combine_skater_block df)).flatten)

structure GoalieRow where
  playerID : Int
  season : Int
  name : String
  team : String
  situation : String
  gamesPlayed : ℚ
  iceTime : ℚ
  xGoals : ℚ
  goals : ℚ
  lowDangerShots : ℚ
  mediumDangerShots : ℚ
  highDangerShots : ℚ
  lowDangerxGoals : ℚ
  mediumDangerxGoals : ℚ
  highDangerxGoals : ℚ
  lowDangerGoals : ℚ
  mediumDangerGoals : ℚ
  highDangerGoals : ℚ
deriving DecidableEq

structure GoalieOutRow where
  playerID : Int
  season : String
  name : String
  team : String
  situation : String
  gamesPlayed : ℚ
  iceTime : ℚ
  xGoals : ℚ
  goals : ℚ
  lowDangerShots : ℚ
  mediumDangerShots : ℚ
  highDangerShots : ℚ
  lowDangerxGoals : ℚ
  mediumDangerxGoals : ℚ
  highDangerxGoals : ℚ
  lowDangerGoals : ℚ
  mediumDangerGoals : ℚ
  highDangerGoals : ℚ
deriving DecidableEq

def goalieCastSeason (r : GoalieRow) : GoalieOutRow :=
  ⟨r.playerID, toString r.season, r.name, r.team, r.situation,
   r.gamesPlayed, r.iceTime, r.xGoals, r.goals,
   r.lowDangerShots, r.mediumDangerShots, r.highDangerShots,
   r.lowDangerxGoals, r.mediumDangerxGoals, r.highDangerxGoals,
   r.lowDangerGoals, r.mediumDangerGoals, r.highDangerGoals⟩

def goalie_rows_for (df : List GoalieRow) (pid : Int) : List GoalieRow :=
  df.filter (fun r => r.playerID == pid)

/-- The rows the goalie combiner contributes for one `player_id` (the loop body
of `combine_goalie_seasons`; no rate metrics are derived there). -/
def combine_goalie_block (df : List GoalieRow) (pid : Int) : List GoalieOutRow :=
  let p := goalie_rows_for df pid
  let seasons := sortedSeasons (p.map (fun r => r.season)).dedup
  if seasons.length = 1 then p.map goalieCastSeason
  else
    match p with
    | [] => []
    | r0 :: _ =>
      let total := fun (f : GoalieRow → ℚ) => (p.map f).sum
      [{ playerID := pid
         season := String.intercalate "," (seasons.map toString)
         name := r0.name
         team := r0.team
         situation := r0.situation
         gamesPlayed := total (fun r => r.gamesPlayed)
         iceTime := total (fun r => r.iceTime)
         xGoals := total (fun r => r.xGoals)
         goals := total (fun r => r.goals)
         lowDangerShots := total (fun r => r.lowDangerShots)
         mediumDangerShots := total (fun r => r.mediumDangerShots)
         highDangerShots := total (fun r => r.highDangerShots)
         lowDangerxGoals := total (fun r => r.lowDangerxGoals)
         mediumDangerxGoals := total (fun r => r.mediumDangerxGoals)
         highDangerxGoals := total (fun r => r.highDangerxGoals)
         lowDangerGoals := total (fun r => r.lowDangerGoals)
         mediumDangerGoals := total (fun r => r.mediumDangerGoals)
         highDangerGoals := total (fun r => r.highDangerGoals) }]

def goalieOutOrder (a b : GoalieOutRow) : Prop :=
  a.team < b.team ∨ (a.team = b.team ∧ a.playerID ≤ b.playerID)

instance : DecidableRel goalieOutOrder := fun a b =>
  inferInstanceAs (Decidable (a.team < b.team ∨ (a.team = b.team ∧ a.playerID ≤ b.playerID)))

/-- `combine_goalie_seasons` (`pyhockey/goalie_summary.py`, lines 65-134). -/
def combine_goalie_seasons (df : List GoalieRow) : List GoalieOutRow :=
  List.insertionSort goalieOutOrder
    ((((df.map (fun r => r.playerID)).dedup).map (combine_goalie_block df)).flatten)

def skR7 : SkaterRow :=
  ⟨7, 2023, "Ann", "TOR", "C", "all", 50, 100, 10, 5, 1, 2, 3, 4, 0, 0, 0, 0, 0, 0, 0⟩

def skR31 : SkaterRow :=
  ⟨3, 2023, "Nick", "MTL", "D", "all", 1, 30, 1, 1, 1, 2, 1, 1, 0, 0, 0, 0, 0, 0, 0⟩

def skR32 : SkaterRow :=
  ⟨3, 2024, "Nick", "MTL", "D", "all", 2, 30, 2, 0, 1, 3, 1, 1, 0, 0, 0, 0, 0, 0, 0⟩

def SKDF : List SkaterRow := [skR7, skR31, skR32]

def gkR7 : GoalieRow :=
  ⟨7, 2023, "Carey", "MTL", "all", 50, 100, 1, 2, 3, 4, 5, 1, 1, 1, 0, 1, 2⟩

def gkR31 : GoalieRow :=
  ⟨3, 2023, "Jake", "TOR", "all", 50, 10, 1, 2, 3, 4, 5, 1, 1, 1, 0, 1, 2⟩

def gkR32 : GoalieRow :=
  ⟨3, 2024, "Jake", "TOR", "all", 60, 20, 2, 3, 1, 1, 1, 0, 0, 0, 1, 1, 1⟩

def GKDF : List GoalieRow := [gkR7, gkR31, gkR32]

/-! ### Specification-side predicates -/

/-- Specification predicate: the value (each element, for a list) lies in the
configured domain of its column. -/
def domain_ok (column : String) (value : QueryValue) : Bool :=
  match List.lookup column VALID_INPUT_VALUES with
  | none => false
  | some valid_inputs =>
    match value with
    | .scalar s => pyMem s valid_inputs
    | .list vs => vs.all (fun v => pyMem v valid_inputs)

/-- The elements a `QueryValue` contributes to the type check. -/
def elemsOf : QueryValue → List Scalar
  | .scalar s => [s]
  | .list vs => vs

/-- Specification predicate: the value (each element, for a list) matches one
of its column's accepted types. -/
def type_ok (column : String) (value : QueryValue) : Bool :=
  match List.lookup column COLUMN_SCHEMA with
  | none => false
  | some tys => (elemsOf value).all (fun s => matchesType s tys)

/-- The condition under which `validate_date_range_inputs` deletes `season`
from the caller's mapping: `season`, `start_date` and `end_date` all present
and truthy. -/
def season_dropped (column_mapping : List (String × QueryValue))
    (qualifiers : List (String × String)) : Bool :=
  mappingGetTruthy column_mapping "season" &&
  qualifiersGetTruthy qualifiers "start_date" &&
  qualifiersGetTruthy qualifiers "end_date"

/-- The caller-visible filter mapping after a successful `construct_query`
call: unchanged, except that `season` is deleted when `season_dropped`
holds. -/
def final_mapping_spec (m : List (String × QueryValue))
    (q : Option (List (String × String))) : List (String × QueryValue) :=
  match q with
  | none => m
  | some qs =>
    if season_dropped m qs then m.filter (fun p => p.1 != "season") else m

/-! ### Theorems -/

/-! ### Helper lemmas about the combiners -/

/-- Filtering the concatenation of per-ID blocks with a predicate that holds
exactly on the rows of one ID's block keeps exactly that block, provided the
IDs are distinct. -/
theorem flatten_filter_key {β : Type} (pred : β → Bool) (pid : Int) :
    ∀ (ids : List Int) (f : Int → List β), ids.Nodup →
      (∀ q r, r ∈ f q → (pred r = true ↔ q = pid)) →
      ((ids.map f).flatten.filter pred) =
        if pid ∈ ids then f pid else [] := by
  intro ids
  induction ids with
  | nil => intro f _ _; simp
  | cons a t ih =>
    intro f hnd hf
    rw [List.map_cons, List.flatten_cons, List.filter_append]
    rcases List.nodup_cons.mp hnd with ⟨ha, hndt⟩
    by_cases hap : a = pid
    · subst hap
      have h1 : (f a).filter pred = f a :=
        List.filter_eq_self.mpr (fun r hr => (hf a r hr).mpr rfl)
      have h2 := ih f hndt (fun q r hr => hf q r hr)
      rw [if_neg ha] at h2
      simp [h1, h2]
    · have h1 : (f a).filter pred = [] :=
        List.filter_eq_nil_iff.mpr
          (fun r hr hpr => hap ((hf a r hr).mp hpr))
      have h2 := ih f hndt (fun q r hr => hf q r hr)
      rw [h1, List.nil_append, h2]
      by_cases hm : pid ∈ t
      · rw [if_pos hm, if_pos (List.mem_cons_of_mem a hm)]
      · have hnotm : pid ∉ a :: t := by
          simp only [List.mem_cons]
          rintro (h | h)
          · exact hap h.symm
          · exact hm h
        rw [if_neg hm, if_neg hnotm]

theorem mem_combine_skater_block (df : List SkaterRow) (pid : Int) :
    ∀ r ∈ combine_skater_block df pid, r.playerID = pid := by
  intro r hr
  simp only [combine_skater_block] at hr
  split at hr
  · rcases List.mem_map.mp hr with ⟨s, hs, rfl⟩
    have := (List.mem_filter.mp hs).2
    simpa [skaterCastSeason] using this
  · split at hr
    · simp at hr
    · rcases List.mem_singleton.mp hr with rfl
      rfl

theorem mem_combine_goalie_block (df : List GoalieRow) (pid : Int) :
    ∀ r ∈ combine_goalie_block df pid, r.playerID = pid := by
  intro r hr
  simp only [combine_goalie_block] at hr
  split at hr
  · rcases List.mem_map.mp hr with ⟨s, hs, rfl⟩
    have := (List.mem_filter.mp hs).2
    simpa [goalieCastSeason] using this
  · split at hr
    · simp at hr
    · rcases List.mem_singleton.mp hr with rfl
      rfl

theorem combine_skater_filter_perm (df : List SkaterRow) (pid : Int)
    (h : pid ∈ (df.map (fun r => r.playerID)).dedup) :
    List.Perm ((combine_skater_seasons df).filter (fun r => r.playerID == pid))
      (combine_skater_block df pid) := by
  have hperm :
      List.Perm ((combine_skater_seasons df).filter (fun r => r.playerID == pid))
        (((((df.map (fun r => r.playerID)).dedup).map (combine_skater_block df)).flatten).filter
          (fun r => r.playerID == pid)) :=
    (List.perm_insertionSort _ _).filter _
  have heq := flatten_filter_key (fun r => r.playerID == pid) pid
      ((df.map (fun r => r.playerID)).dedup) (combine_skater_block df)
      (List.nodup_dedup _)
      (fun q r hr => by
        have := mem_combine_skater_block df q r hr
        simp [this])
  rw [heq, if_pos h] at hperm
  exact hperm

theorem combine_goalie_filter_perm (df : List GoalieRow) (pid : Int)
    (h : pid ∈ (df.map (fun r => r.playerID)).dedup) :
    List.Perm ((combine_goalie_seasons df).filter (fun r => r.playerID == pid))
      (combine_goalie_block df pid) := by
  have hperm :
      List.Perm ((combine_goalie_seasons df).filter (fun r => r.playerID == pid))
        (((((df.map (fun r => r.playerID)).dedup).map (combine_goalie_block df)).flatten).filter
          (fun r => r.playerID == pid)) :=
    (List.perm_insertionSort _ _).filter _
  have heq := flatten_filter_key (fun r => r.playerID == pid) pid
      ((df.map (fun r => r.playerID)).dedup) (combine_goalie_block df)
      (List.nodup_dedup _)
      (fun q r hr => by
        have := mem_combine_goalie_block df q r hr
        simp [this])
  rw [heq, if_pos h] at hperm
  exact hperm

theorem sortedSeasons_length (l : List Int) : (sortedSeasons l).length = l.length :=
  (List.perm_insertionSort _ _).length_eq

theorem combine_skater_block_single (df : List SkaterRow) (pid : Int) (r : SkaterRow)
    (hone : skater_rows_for df pid = [r]) :
    combine_skater_block df pid = [skaterCastSeason r] := by
  have hded : (([r.season] : List Int)).dedup = [r.season] :=
    List.dedup_eq_self.mpr (List.nodup_singleton _)
  simp only [combine_skater_block, hone, List.map_cons, List.map_nil, hded]
  simp [sortedSeasons, List.insertionSort, List.orderedInsert]

theorem combine_goalie_block_single (df : List GoalieRow) (pid : Int) (r : GoalieRow)
    (hone : goalie_rows_for df pid = [r]) :
    combine_goalie_block df pid = [goalieCastSeason r] := by
  have hded : (([r.season] : List Int)).dedup = [r.season] :=
    List.dedup_eq_self.mpr (List.nodup_singleton _)
  simp only [combine_goalie_block, hone, List.map_cons, List.map_nil, hded]
  simp [sortedSeasons, List.insertionSort, List.orderedInsert]

theorem combine_skater_block_multi (df : List SkaterRow) (pid : Int)
    (hnd : ((skater_rows_for df pid).map (fun r => r.season)).Nodup)
    (hlen : 2 ≤ (skater_rows_for df pid).length) :
    ∃ o, combine_skater_block df pid = [o] ∧
      o.playerID = pid ∧
      o.season = String.intercalate ","
        ((sortedSeasons ((skater_rows_for df pid).map (fun r => r.season))).map toString) ∧
      o.gamesPlayed = ((skater_rows_for df pid).map (fun r => r.gamesPlayed)).sum ∧
      o.iceTime = ((skater_rows_for df pid).map (fun r => r.iceTime)).sum ∧
      o.points = ((skater_rows_for df pid).map (fun r => r.points)).sum ∧
      o.goals = ((skater_rows_for df pid).map (fun r => r.goals)).sum ∧
      o.xGoalsFor = ((skater_rows_for df pid).map (fun r => r.xGoalsFor)).sum ∧
      o.goalsFor = ((skater_rows_for df pid).map (fun r => r.goalsFor)).sum ∧
      o.xGoalsAgainst = ((skater_rows_for df pid).map (fun r => r.xGoalsAgainst)).sum ∧
      o.goalsAgainst = ((skater_rows_for df pid).map (fun r => r.goalsAgainst)).sum ∧
      o.goalsForPerHour =
        60 * ((skater_rows_for df pid).map (fun r => r.goalsFor)).sum /
          ((skater_rows_for df pid).map (fun r => r.iceTime)).sum ∧
      o.goalsAgainstPerHour =
        60 * ((skater_rows_for df pid).map (fun r => r.goalsAgainst)).sum /
          ((skater_rows_for df pid).map (fun r => r.iceTime)).sum ∧
      o.xGoalsForPerHour =
        60 * ((skater_rows_for df pid).map (fun r => r.xGoalsFor)).sum /
          ((skater_rows_for df pid).map (fun r => r.iceTime)).sum ∧
      o.xGoalsAgainstPerHour =
        60 * ((skater_rows_for df pid).map (fun r => r.xGoalsAgainst)).sum /
          ((skater_rows_for df pid).map (fun r => r.iceTime)).sum ∧
      o.pointsPerHour =
        60 * ((skater_rows_for df pid).map (fun r => r.points)).sum /
          ((skater_rows_for df pid).map (fun r => r.iceTime)).sum ∧
      o.goalsPerHour =
        60 * ((skater_rows_for df pid).map (fun r => r.goals)).sum /
          ((skater_rows_for df pid).map (fun r => r.iceTime)).sum ∧
      o.averageIceTime =
        pyRound2 (((skater_rows_for df pid).map (fun r => r.iceTime)).sum /
          ((skater_rows_for df pid).map (fun r => r.gamesPlayed)).sum) := by
  have hded : ((skater_rows_for df pid).map (fun r => r.season)).dedup =
      (skater_rows_for df pid).map (fun r => r.season) := List.dedup_eq_self.mpr hnd
  obtain ⟨r0, tl, hptl⟩ : ∃ r0 tl, skater_rows_for df pid = r0 :: tl := by
    cases hp : skater_rows_for df pid with
    | nil => rw [hp] at hlen; simp at hlen
    | cons a l => exact ⟨a, l, rfl⟩
  rw [hptl] at hded hlen
  have hlen1 : ¬ ((sortedSeasons ((r0 :: tl).map (fun r => r.season)).dedup).length = 1) := by
    rw [hded, sortedSeasons_length, List.length_map, List.length_cons]
    simp only [List.length_cons] at hlen
    omega
  simp only [combine_skater_block, hptl, if_neg hlen1]
  refine ⟨_, rfl, ?_, ?_, ?_, ?_, ?_, ?_, ?_, ?_, ?_, ?_, ?_, ?_, ?_, ?_, ?_, ?_⟩
  all_goals try rfl
  all_goals try ring1
  · rw [hded]
  all_goals constructor <;> first | rfl | ring1

theorem combine_goalie_block_multi (df : List GoalieRow) (pid : Int)
    (hnd : ((goalie_rows_for df pid).map (fun r => r.season)).Nodup)
    (hlen : 2 ≤ (goalie_rows_for df pid).length) :
    ∃ o, combine_goalie_block df pid = [o] ∧
      o.playerID = pid ∧
      o.season = String.intercalate ","
        ((sortedSeasons ((goalie_rows_for df pid).map (fun r => r.season))).map toString) ∧
      o.gamesPlayed = ((goalie_rows_for df pid).map (fun r => r.gamesPlayed)).sum ∧
      o.iceTime = ((goalie_rows_for df pid).map (fun r => r.iceTime)).sum ∧
      o.xGoals = ((goalie_rows_for df pid).map (fun r => r.xGoals)).sum ∧
      o.goals = ((goalie_rows_for df pid).map (fun r => r.goals)).sum ∧
      o.lowDangerShots = ((goalie_rows_for df pid).map (fun r => r.lowDangerShots)).sum ∧
      o.mediumDangerShots = ((goalie_rows_for df pid).map (fun r => r.mediumDangerShots)).sum ∧
      o.highDangerShots = ((goalie_rows_for df pid).map (fun r => r.highDangerShots)).sum ∧
      o.lowDangerxGoals = ((goalie_rows_for df pid).map (fun r => r.lowDangerxGoals)).sum ∧
      o.mediumDangerxGoals = ((goalie_rows_for df pid).map (fun r => r.mediumDangerxGoals)).sum ∧
      o.highDangerxGoals = ((goalie_rows_for df pid).map (fun r => r.highDangerxGoals)).sum ∧
      o.lowDangerGoals = ((goalie_rows_for df pid).map (fun r => r.lowDangerGoals)).sum ∧
      o.mediumDangerGoals = ((goalie_rows_for df pid).map (fun r => r.mediumDangerGoals)).sum ∧
      o.highDangerGoals = ((goalie_rows_for df pid).map (fun r => r.highDangerGoals)).sum := by
  have hded : ((goalie_rows_for df pid).map (fun r => r.season)).dedup =
      (goalie_rows_for df pid).map (fun r => r.season) := List.dedup_eq_self.mpr hnd
  obtain ⟨r0, tl, hptl⟩ : ∃ r0 tl, goalie_rows_for df pid = r0 :: tl := by
    cases hp : goalie_rows_for df pid with
    | nil => rw [hp] at hlen; simp at hlen
    | cons a l => exact ⟨a, l, rfl⟩
  rw [hptl] at hded hlen
  have hlen1 : ¬ ((sortedSeasons ((r0 :: tl).map (fun r => r.season)).dedup).length = 1) := by
    rw [hded, sortedSeasons_length, List.length_map, List.length_cons]
    simp only [List.length_cons] at hlen
    omega
  simp only [combine_goalie_block, hptl, if_neg hlen1]
  refine ⟨_, rfl, ?_, ?_, ?_, ?_, ?_, ?_, ?_, ?_, ?_, ?_, ?_, ?_, ?_, ?_⟩
  all_goals try rfl
  · rw [hded]
  all_goals constructor <;> rfl

/-! ### Claim C7 -/

/-- C7: the season combiners (`combine_skater_seasons` / `combine_goalie_seasons`)
return, for each entity with exactly one season, that entity's row unchanged
except the season cast to string; and for each entity with at least two
(distinct) seasons, exactly one output row whose `season` is the distinct
seasons sorted ascending and comma-joined, whose counting columns are the sums
of that entity's input rows, whose rate columns (skaters) equal
`60 * summed_total / summed_iceTime`, and whose `averageIceTime` (skaters)
equals `round(summed_iceTime / summed_gamesPlayed, 2)`. -/
theorem combine_seasons_per_entity :
    (∀ (df : List SkaterRow) (pid : Int) (r : SkaterRow),
      skater_rows_for df pid = [r] →
      (combine_skater_seasons df).filter (fun x => x.playerID == pid) = [skaterCastSeason r])
    ∧
    (∀ (df : List SkaterRow) (pid : Int),
      ((skater_rows_for df pid).map (fun r => r.season)).Nodup →
      2 ≤ (skater_rows_for df pid).length →
      ((combine_skater_seasons df).filter (fun x => x.playerID == pid)).length = 1 ∧
      ∀ o, (combine_skater_seasons df).filter (fun x => x.playerID == pid) = [o] →
        o.playerID = pid ∧
        o.season = String.intercalate ","
          ((sortedSeasons ((skater_rows_for df pid).map (fun r => r.season))).map toString) ∧
        o.gamesPlayed = ((skater_rows_for df pid).map (fun r => r.gamesPlayed)).sum ∧
        o.iceTime = ((skater_rows_for df pid).map (fun r => r.iceTime)).sum ∧
        o.points = ((skater_rows_for df pid).map (fun r => r.points)).sum ∧
        o.goals = ((skater_rows_for df pid).map (fun r => r.goals)).sum ∧
        o.xGoalsFor = ((skater_rows_for df pid).map (fun r => r.xGoalsFor)).sum ∧
        o.goalsFor = ((skater_rows_for df pid).map (fun r => r.goalsFor)).sum ∧
        o.xGoalsAgainst = ((skater_rows_for df pid).map (fun r => r.xGoalsAgainst)).sum ∧
        o.goalsAgainst = ((skater_rows_for df pid).map (fun r => r.goalsAgainst)).sum ∧
        o.goalsForPerHour =
          60 * ((skater_rows_for df pid).map (fun r => r.goalsFor)).sum /
            ((skater_rows_for df pid).map (fun r => r.iceTime)).sum ∧
        o.goalsAgainstPerHour =
          60 * ((skater_rows_for df pid).map (fun r => r.goalsAgainst)).sum /
            ((skater_rows_for df pid).map (fun r => r.iceTime)).sum ∧
        o.xGoalsForPerHour =
          60 * ((skater_rows_for df pid).map (fun r => r.xGoalsFor)).sum /
            ((skater_rows_for df pid).map (fun r => r.iceTime)).sum ∧
        o.xGoalsAgainstPerHour =
          60 * ((skater_rows_for df pid).map (fun r => r.xGoalsAgainst)).sum /
            ((skater_rows_for df pid).map (fun r => r.iceTime)).sum ∧
        o.pointsPerHour =
          60 * ((skater_rows_for df pid).map (fun r => r.points)).sum /
            ((skater_rows_for df pid).map (fun r => r.iceTime)).sum ∧
        o.goalsPerHour =
          60 * ((skater_rows_for df pid).map (fun r => r.goals)).sum /
            ((skater_rows_for df pid).map (fun r => r.iceTime)).sum ∧
        o.averageIceTime =
          pyRound2 (((skater_rows_for df pid).map (fun r => r.iceTime)).sum /
            ((skater_rows_for df pid).map (fun r => r.gamesPlayed)).sum))
    ∧
    (∀ (df : List GoalieRow) (pid : Int) (r : GoalieRow),
      goalie_rows_for df pid = [r] →
      (combine_goalie_seasons df).filter (fun x => x.playerID == pid) = [goalieCastSeason r])
    ∧
    (∀ (df : List GoalieRow) (pid : Int),
      ((goalie_rows_for df pid).map (fun r => r.season)).Nodup →
      2 ≤ (goalie_rows_for df pid).length →
      ((combine_goalie_seasons df).filter (fun x => x.playerID == pid)).length = 1 ∧
      ∀ o, (combine_goalie_seasons df).filter (fun x => x.playerID == pid) = [o] →
        o.playerID = pid ∧
        o.season = String.intercalate ","
          ((sortedSeasons ((goalie_rows_for df pid).map (fun r => r.season))).map toString) ∧
        o.gamesPlayed = ((goalie_rows_for df pid).map (fun r => r.gamesPlayed)).sum ∧
        o.iceTime = ((goalie_rows_for df pid).map (fun r => r.iceTime)).sum ∧
        o.xGoals = ((goalie_rows_for df pid).map (fun r => r.xGoals)).sum ∧
        o.goals = ((goalie_rows_for df pid).map (fun r => r.goals)).sum ∧
        o.lowDangerShots = ((goalie_rows_for df pid).map (fun r => r.lowDangerShots)).sum ∧
        o.mediumDangerShots = ((goalie_rows_for df pid).map (fun r => r.mediumDangerShots)).sum ∧
        o.highDangerShots = ((goalie_rows_for df pid).map (fun r => r.highDangerShots)).sum ∧
        o.lowDangerxGoals = ((goalie_rows_for df pid).map (fun r => r.lowDangerxGoals)).sum ∧
        o.mediumDangerxGoals = ((goalie_rows_for df pid).map (fun r => r.mediumDangerxGoals)).sum ∧
        o.highDangerxGoals = ((goalie_rows_for df pid).map (fun r => r.highDangerxGoals)).sum ∧
        o.lowDangerGoals = ((goalie_rows_for df pid).map (fun r => r.lowDangerGoals)).sum ∧
        o.mediumDangerGoals = ((goalie_rows_for df pid).map (fun r => r.mediumDangerGoals)).sum ∧
        o.highDangerGoals = ((goalie_rows_for df pid).map (fun r => r.highDangerGoals)).sum) := by
  refine ⟨?_, ?_, ?_, ?_⟩
  · intro df pid r hone
    have hr : r ∈ skater_rows_for df pid := by
      rw [hone]; exact List.mem_singleton_self r
    have h1 := List.mem_filter.mp hr
    have h2 : r.playerID = pid := by simpa using h1.2
    have hmem : pid ∈ (df.map (fun x => x.playerID)).dedup :=
      List.mem_dedup.mpr (h2 ▸ List.mem_map_of_mem _ h1.1)
    have hperm := combine_skater_filter_perm df pid hmem
    rw [combine_skater_block_single df pid r hone] at hperm
    exact List.perm_singleton.mp hperm
  · intro df pid hnd hlen
    obtain ⟨ob, hb, hfacts⟩ := combine_skater_block_multi df pid hnd hlen
    obtain ⟨r0, tl, hptl⟩ : ∃ r0 tl, skater_rows_for df pid = r0 :: tl := by
      cases hp : skater_rows_for df pid with
      | nil => rw [hp] at hlen; simp at hlen
      | cons a l => exact ⟨a, l, rfl⟩
    have hr : r0 ∈ skater_rows_for df pid := by
      rw [hptl]; exact List.mem_cons_self _ _
    have h1 := List.mem_filter.mp hr
    have h2 : r0.playerID = pid := by simpa using h1.2
    have hmem : pid ∈ (df.map (fun x => x.playerID)).dedup :=
      List.mem_dedup.mpr (h2 ▸ List.mem_map_of_mem _ h1.1)
    have hperm := combine_skater_filter_perm df pid hmem
    rw [hb] at hperm
    have hfil := List.perm_singleton.mp hperm
    refine ⟨by rw [hfil]; rfl, ?_⟩
    intro o ho
    rw [hfil] at ho
    injection ho with hoo _
    exact hoo ▸ hfacts
  · intro df pid r hone
    have hr : r ∈ goalie_rows_for df pid := by
      rw [hone]; exact List.mem_singleton_self r
    have h1 := List.mem_filter.mp hr
    have h2 : r.playerID = pid := by simpa using h1.2
    have hmem : pid ∈ (df.map (fun x => x.playerID)).dedup :=
      List.mem_dedup.mpr (h2 ▸ List.mem_map_of_mem _ h1.1)
    have hperm := combine_goalie_filter_perm df pid hmem
    rw [combine_goalie_block_single df pid r hone] at hperm
    exact List.perm_singleton.mp hperm
  · intro df pid hnd hlen
    obtain ⟨ob, hb, hfacts⟩ := combine_goalie_block_multi df pid hnd hlen
    obtain ⟨r0, tl, hptl⟩ : ∃ r0 tl, goalie_rows_for df pid = r0 :: tl := by
      cases hp : goalie_rows_for df pid with
      | nil => rw [hp] at hlen; simp at hlen
      | cons a l => exact ⟨a, l, rfl⟩
    have hr : r0 ∈ goalie_rows_for df pid := by
      rw [hptl]; exact List.mem_cons_self _ _
    have h1 := List.mem_filter.mp hr
    have h2 : r0.playerID = pid := by simpa using h1.2
    have hmem : pid ∈ (df.map (fun x => x.playerID)).dedup :=
      List.mem_dedup.mpr (h2 ▸ List.mem_map_of_mem _ h1.1)
    have hperm := combine_goalie_filter_perm df pid hmem
    rw [hb] at hperm
    have hfil := List.perm_singleton.mp hperm
    refine ⟨by rw [hfil]; rfl, ?_⟩
    intro o ho
    rw [hfil] at ho
    injection ho with hoo _
    exact hoo ▸ hfacts

/-- Witness for C7 at a concrete result set: one single-season skater/goalie
and one two-season skater/goalie (`gamesPlayed` 50 and 60). -/
theorem combine_seasons_per_entity_witness :
    (combine_skater_seasons SKDF).filter (fun x => x.playerID == 7) = [skaterCastSeason skR7] ∧
    ((combine_skater_seasons SKDF).filter (fun x => x.playerID == 3)).length = 1 ∧
    ((combine_skater_seasons SKDF).filter (fun x => x.playerID == 3)).map
      (fun o => o.season) = ["2023,2024"] ∧
    (combine_goalie_seasons GKDF).filter (fun x => x.playerID == 7) = [goalieCastSeason gkR7] ∧
    ((combine_goalie_seasons GKDF).filter (fun x => x.playerID == 3)).length = 1 ∧
    ((combine_goalie_seasons GKDF).filter (fun x => x.playerID == 3)).map
      (fun o => o.season) = ["2023,2024"] := by
  have hsk := combine_seasons_per_entity.2.1 SKDF 3 (by decide) (by decide)
  have hgk := combine_seasons_per_entity.2.2.2 GKDF 3 (by decide) (by decide)
  obtain ⟨o1, ho1⟩ := List.length_eq_one.mp hsk.1
  obtain ⟨o2, ho2⟩ := List.length_eq_one.mp hgk.1
  have hseason1 := (hsk.2 o1 ho1).2.1
  have hseason2 := (hgk.2 o2 ho2).2.1
  refine ⟨combine_seasons_per_entity.1 SKDF 7 skR7 rfl, hsk.1, ?_,
    combine_seasons_per_entity.2.2.1 GKDF 7 gkR7 rfl, hgk.1, ?_⟩
  · rw [ho1, List.map_singleton, hseason1]
    rfl
  · rw [ho2, List.map_singleton, hseason2]
    rfl

/-! ### Claims C1, C2, C10 -/

/-- C1 (divergence evidence): at the spec's own example — filters
`{team:[TOR,MTL,OTT], season:[2024,2025], situation:[all,5on5]}`, qualifiers
`{iceTime: '<100'}`, order `[team, season]`, table `goalies` — the code emits
the filter conditions BEFORE the qualifier fragment, not after it as the claim
(and the repository's own test `test_construct_query_complex`) requires. -/
theorem construct_query_filters_precede_qualifiers :
    construct_query "goalies"
      [("team", .list [.str "TOR", .str "MTL", .str "OTT"]),
       ("season", .list [.int 2024, .int 2025]),
       ("situation", .list [.str "all", .str "5on5"])]
      (some [("iceTime", "<100")]) (some ["team", "season"]) =
    .ok ⟨"SELECT * FROM goalies WHERE (team = 'TOR' OR team = 'MTL' OR team = 'OTT') AND (season = 2024 OR season = 2025) AND (situation = 'all' OR situation = '5on5') AND iceTime <100 ORDER BY team, season",
      [("team", .list [.str "TOR", .str "MTL", .str "OTT"]),
       ("season", .list [.int 2024, .int 2025]),
       ("situation", .list [.str "all", .str "5on5"])], false⟩ ∧
    ("SELECT * FROM goalies WHERE (team = 'TOR' OR team = 'MTL' OR team = 'OTT') AND (season = 2024 OR season = 2025) AND (situation = 'all' OR situation = '5on5') AND iceTime <100 ORDER BY team, season" ==
     "SELECT * FROM goalies WHERE iceTime <100 AND (team = 'TOR' OR team = 'MTL' OR team = 'OTT') AND (season = 2024 OR season = 2025) AND (situation = 'all' OR situation = '5on5') ORDER BY team, season") = false := by
  exact ⟨rfl, by decide⟩

/-- C2 (divergence evidence): with both date qualifiers and a `season` filter
(the input of the repository's own test `test_construct_query_with_date_range`),
the informational notice IS printed and `season` IS deleted from the caller's
mapping — but only after the filter conditions were already built, so the
returned query still contains the season condition. -/
theorem construct_query_season_condition_survives_date_override :
    construct_query "team_games"
      [("season", .list [.int 2024]), ("team", .scalar (.str "TOR")),
       ("situation", .list [.str "all", .str "5on5"])]
      (some [("start_date", "2024-10-30"), ("end_date", "2025-03-25")])
      (some ["team", "gameDate"]) =
    .ok ⟨"SELECT * FROM team_games WHERE (season = 2024) AND team = 'TOR' AND (situation = 'all' OR situation = '5on5') AND gameDate >= '2024-10-30' AND gameDate <= '2025-03-25' ORDER BY team, gameDate",
      [("team", .scalar (.str "TOR")), ("situation", .list [.str "all", .str "5on5"])],
      true⟩ ∧
    hasInfix "season = 2024".toList
      "SELECT * FROM team_games WHERE (season = 2024) AND team = 'TOR' AND (situation = 'all' OR situation = '5on5') AND gameDate >= '2024-10-30' AND gameDate <= '2025-03-25' ORDER BY team, gameDate".toList = true := by
  exact ⟨rfl, by decide⟩

/-- C10: a filter mapping binding a schema column to the empty list passes both
validators, yet `construct_query` fails on `value[0]` (IndexError): neither
validator enforces the non-emptiness precondition of the element-type
inspection. -/
theorem empty_list_filter_passes_validation_but_breaks_query :
    check_input_type [("season", QueryValue.list [])] = .ok true ∧
    check_input_values [("season", QueryValue.list [])] = .ok true ∧
    construct_query "skaters" [("season", QueryValue.list [])] none none =
      .error .indexError := by
  exact ⟨rfl, rfl, rfl⟩

/-! ### Claim C3 -/

/-- C3 (counterexample): `check_input_values` does not skip the schema column
`name` (which has no configured domain); it fails with a `KeyError` instead of
returning ok. -/
theorem check_input_values_keyerror_on_name :
    check_input_values [("name", .scalar (.str "Auston Matthews"))] =
      .error (.keyError "name") := by
  rfl

/-- C3 (amended): `check_input_values` inspects every column of the mapping —
it returns ok only when every column has a configured domain in
`VALID_INPUT_VALUES`; an entry for any other column (e.g. `name`) makes the
lookup fail with a `KeyError` rather than being skipped. -/
theorem check_input_values_ok_only_domain_columns :
    ∀ (m : List (String × QueryValue)), check_input_values m = .ok true →
      ∀ p ∈ m, (List.lookup p.1 VALID_INPUT_VALUES).isSome = true := by
  intro m
  induction m with
  | nil =>
    intro _ p hp
    simp at hp
  | cons a rest ih =>
    intro h p hp
    rcases a with ⟨c, v⟩
    simp only [check_input_values] at h
    cases hl : List.lookup c VALID_INPUT_VALUES with
    | none => simp [hl] at h
    | some valids =>
      simp only [hl] at h
      split at h
      · simp at h
      · rcases List.mem_cons.mp hp with rfl | hmem
        · simp [hl]
        · exact ih h p hmem

/-- Witness for the amended C3 at a concrete mapping. -/
theorem check_input_values_ok_only_domain_columns_witness :
    (List.lookup "season" VALID_INPUT_VALUES).isSome = true :=
  check_input_values_ok_only_domain_columns
    [("season", .scalar (.int 2024))] (by rfl)
    ("season", .scalar (.int 2024)) (List.mem_singleton_self _)

/-! ### Claim C4 -/

theorem validate_start_date_error (v : String) (hf : validDate v = false) :
    validate_date_range_inputs [] [("start_date", v)] =
      .error (.formatError "start_date" v) := by
  have h1 : List.lookup "start_date" [("start_date", v)] = some v := rfl
  simp only [validate_date_range_inputs, h1, hf]
  rfl

theorem validate_start_date_ok (v : String) (ht : validDate v = true) :
    validate_date_range_inputs [] [("start_date", v)] = .ok ([], false) := by
  have h1 : List.lookup "start_date" [("start_date", v)] = some v := rfl
  have h2 : List.lookup "end_date" [("start_date", v)] = none := rfl
  simp only [validate_date_range_inputs, h1, h2, ht]
  rfl

/-- `strptime`'s `%Y-%m-%d` accepts every strict `YYYY-MM-DD` calendar date. -/
theorem specStrictYMD_implies_validDate (v : String) :
    specStrictYMD v = true → validDate v = true := by
  unfold specStrictYMD validDate
  cases hsp : splitDash v.toList with
  | nil => simp
  | cons ys t1 =>
    cases t1 with
    | nil => simp
    | cons ms t2 =>
      cases t2 with
      | nil => simp
      | cons ds t3 =>
        cases t3 with
        | cons _ _ => simp
        | nil =>
          intro hs
          simp only [Bool.and_eq_true, Bool.or_eq_true, beq_iff_eq,
            decide_eq_true_eq] at hs ⊢
          tauto

/-- C4 (amended): a `start_date`/`end_date` qualifier is rejected — with a
format error naming the field and the received value, and without producing a
query — exactly when it is not a calendar date with a four-digit year and
one-or-two-digit month and day (CPython `strptime` does not require zero
padding); in particular every strict `YYYY-MM-DD` calendar date is accepted. -/
theorem date_qualifier_validation (v : String) :
    (validDate v = false →
      construct_query "team_games" [] (some [("start_date", v)]) none =
        .error (.formatError "start_date" v)) ∧
    (validDate v = true →
      construct_query "team_games" [] (some [("start_date", v)]) none =
        .ok ⟨"SELECT * FROM team_games WHERE gameDate >= '" ++ v ++ "'", [], false⟩) ∧
    (specStrictYMD v = true → validDate v = true) := by
  refine ⟨?_, ?_, specStrictYMD_implies_validDate v⟩
  · intro hf
    simp only [construct_query, validate_start_date_error v hf]
    rfl
  · intro ht
    simp only [construct_query, validate_start_date_ok v ht]
    rfl

/-- C4 (counterexample): `'2024-1-01'` is not in strict `YYYY-MM-DD` form (the
month is not zero-padded), yet `construct_query` accepts it and builds a
query — the claim's "rejects everything but strict `YYYY-MM-DD`" is false. -/
theorem nonstrict_date_accepted :
    specStrictYMD "2024-1-01" = false ∧
    construct_query "team_games" [] (some [("start_date", "2024-1-01")]) none =
      .ok ⟨"SELECT * FROM team_games WHERE gameDate >= '2024-1-01'", [], false⟩ := by
  exact ⟨by decide, rfl⟩

/-- Witness for the amended C4: the claim's own example `'2024-13-01'` (invalid
month) is rejected naming the field and value, and the strict leap-day date
`'2024-02-29'` is accepted. -/
theorem date_qualifier_validation_witness :
    construct_query "team_games" [] (some [("start_date", "2024-13-01")]) none =
      .error (.formatError "start_date" "2024-13-01") ∧
    validDate "2024-02-29" = true :=
  ⟨(date_qualifier_validation "2024-13-01").1 (by decide),
   (date_qualifier_validation "2024-02-29").2.2 (by decide)⟩

/-- C5: over domain-checked columns, `check_input_values` succeeds exactly when
every scalar value is a member of — and every list value a subset of — its
column's domain; on failure the raised `ValueError` carries the offending
column and value together with that column's full list of valid values; and
the `season` domain is exactly the contiguous integer range `[2008, 2025]`.

First, one step of `check_input_values` on a domain-checked column. -/
theorem check_input_values_cons (c : String) (v : QueryValue)
    (rest : List (String × QueryValue)) (valids : List Scalar)
    (hl : List.lookup c VALID_INPUT_VALUES = some valids) :
    check_input_values ((c, v) :: rest) =
      if domain_ok c v then check_input_values rest
      else .error (.valueError c v valids) := by
  simp only [check_input_values, hl, domain_ok]
  cases v with
  | scalar s => by_cases hm : pyMem s valids <;> simp [hm]
  | list vs => by_cases hm : vs.all (fun x => pyMem x valids) <;> simp [hm]

theorem check_input_values_domain_spec (m : List (String × QueryValue))
    (h : ∀ p ∈ m, (List.lookup p.1 VALID_INPUT_VALUES).isSome = true) :
    (check_input_values m = .ok true ↔ ∀ p ∈ m, domain_ok p.1 p.2 = true) ∧
    (∀ c v valids, check_input_values m = .error (.valueError c v valids) →
      List.lookup c VALID_INPUT_VALUES = some valids ∧ (c, v) ∈ m ∧
      domain_ok c v = false) ∧
    (∀ n : Int, domain_ok "season" (.scalar (.int n)) = true ↔ 2008 ≤ n ∧ n ≤ 2025) := by
  refine ⟨?_, ?_, ?_⟩
  · induction m with
    | nil => simp [check_input_values]
    | cons a rest ih =>
      rcases a with ⟨c, v⟩
      have hc := h (c, v) (List.mem_cons_self _ _)
      obtain ⟨valids, hl⟩ := Option.isSome_iff_exists.mp hc
      have hrest := ih (fun p hp => h p (List.mem_cons_of_mem _ hp))
      rw [check_input_values_cons c v rest valids hl]
      by_cases hdv : domain_ok c v = true
      · rw [if_pos hdv]
        constructor
        · intro hok p hp
          rcases List.mem_cons.mp hp with rfl | hmem
          · exact hdv
          · exact hrest.mp hok p hmem
        · intro hall
          exact hrest.mpr (fun p hp => hall p (List.mem_cons_of_mem _ hp))
      · rw [if_neg hdv]
        constructor
        · intro hok
          simp at hok
        · intro hall
          exact absurd (hall (c, v) (List.mem_cons_self _ _)) hdv
  · induction m with
    | nil =>
      intro c v valids hcv
      simp [check_input_values] at hcv
    | cons a rest ih =>
      rcases a with ⟨c0, v0⟩
      have hc := h (c0, v0) (List.mem_cons_self _ _)
      obtain ⟨valids0, hl⟩ := Option.isSome_iff_exists.mp hc
      have hrest := ih (fun p hp => h p (List.mem_cons_of_mem _ hp))
      intro c v valids hcv
      rw [check_input_values_cons c0 v0 rest valids0 hl] at hcv
      by_cases hdv : domain_ok c0 v0 = true
      · rw [if_pos hdv] at hcv
        obtain ⟨h1, h2, h3⟩ := hrest c v valids hcv
        exact ⟨h1, List.mem_cons_of_mem _ h2, h3⟩
      · rw [if_neg hdv] at hcv
        simp only [Except.error.injEq, Err.valueError.injEq] at hcv
        obtain ⟨rfl, rfl, rfl⟩ := hcv
        exact ⟨hl, List.mem_cons_self _ _, Bool.not_eq_true _ ▸ hdv⟩
  · intro n
    have hdef : domain_ok "season" (.scalar (.int n)) =
        (VALID_SEASONS.map Scalar.int).any (pyEq (Scalar.int n)) := rfl
    rw [hdef, List.any_eq_true]
    constructor
    · rintro ⟨s, hsmem, hpe⟩
      simp only [VALID_SEASONS, List.mem_map, List.mem_range] at hsmem
      obtain ⟨x, ⟨i, hi, rfl⟩, rfl⟩ := hsmem
      have hnk : n = 2008 + Int.ofNat i := by
        simpa [pyEq] using hpe
      simp only [Int.ofNat_eq_coe] at hnk
      omega
    · rintro ⟨h1, h2⟩
      refine ⟨Scalar.int n, ?_, by simp [pyEq]⟩
      simp only [VALID_SEASONS, List.mem_map, List.mem_range]
      refine ⟨n, ⟨(n - 2008).toNat, by omega, ?_⟩, rfl⟩
      simp only [Int.ofNat_eq_coe]
      omega

/-- Witness for C5: a fully valid mapping is accepted, and `season = 1999` is
rejected with the valid seasons enumerated. -/
theorem check_input_values_domain_spec_witness :
    check_input_values
      [("season", .scalar (.int 2024)), ("team", .scalar (.str "TOR")),
       ("situation", .scalar (.str "5on5"))] = .ok true ∧
    (2008 ≤ (1999 : Int) ∧ (1999 : Int) ≤ 2025 ↔
      domain_ok "season" (.scalar (.int 1999)) = true) :=
  ⟨(check_input_values_domain_spec _ (by decide)).1.mpr (by decide),
   ((check_input_values_domain_spec [] (by simp)).2.2 1999).symm⟩

theorem firstBadElem_none (tys : List PyType) :
    ∀ vs : List Scalar, firstBadElem tys vs = none ↔
      vs.all (fun s => matchesType s tys) = true := by
  intro vs
  induction vs with
  | nil => simp [firstBadElem]
  | cons v rest ih =>
    by_cases hm : matchesType v tys = true <;> simp [firstBadElem, hm, ih]

theorem firstBadElem_some (tys : List PyType) :
    ∀ (vs : List Scalar) (a : Scalar), firstBadElem tys vs = some a →
      ∃ pre post, vs = pre ++ a :: post ∧
        (∀ b ∈ pre, matchesType b tys = true) ∧ matchesType a tys = false := by
  intro vs
  induction vs with
  | nil => intro a ha; simp [firstBadElem] at ha
  | cons v rest ih =>
    intro a ha
    simp only [firstBadElem] at ha
    split at ha
    · obtain ⟨pre, post, h1, h2, h3⟩ := ih a ha
      refine ⟨v :: pre, post, by rw [h1, List.cons_append], ?_, h3⟩
      intro b hb
      rcases List.mem_cons.mp hb with rfl | hb
      · assumption
      · exact h2 b hb
    · obtain rfl : v = a := by
        injection ha
      rename_i hm
      exact ⟨[], rest, rfl, by simp, by simpa using hm⟩

/-- One step of `check_input_type` on a schema column. -/
theorem check_input_type_cons (c : String) (v : QueryValue)
    (rest : List (String × QueryValue)) (tys : List PyType)
    (hl : List.lookup c COLUMN_SCHEMA = some tys) :
    check_input_type ((c, v) :: rest) =
      if type_ok c v then check_input_type rest
      else .error (.typeError c tys
        ((firstBadElem tys (elemsOf v)).getD (Scalar.str ""))) := by
  simp only [check_input_type, hl, type_ok, elemsOf]
  cases v with
  | scalar s =>
    by_cases hm : matchesType s tys = true <;>
      simp [hm, firstBadElem, List.all_cons]
  | list vs =>
    cases hfb : firstBadElem tys vs with
    | none =>
      have hall := (firstBadElem_none tys vs).mp hfb
      simp [hfb, hall]
    | some a =>
      have : vs.all (fun s => matchesType s tys) = false := by
        cases hall : vs.all (fun s => matchesType s tys) with
        | true => rw [(firstBadElem_none tys vs).mpr hall] at hfb; cases hfb
        | false => rfl
      simp [this, hfb]

/-- C6: over schema columns, `check_input_type` succeeds exactly when every
scalar matches one of its column's accepted types and every list element does;
on a mismatch the raised error reports the column, the expected type(s) and the
first offending element; and the error aborts `construct_query` before any
query string is produced. -/
theorem check_input_type_spec (m : List (String × QueryValue))
    (h : ∀ p ∈ m, (List.lookup p.1 COLUMN_SCHEMA).isSome = true) :
    (check_input_type m = .ok true ↔ ∀ p ∈ m, type_ok p.1 p.2 = true) ∧
    (∀ c tys a, check_input_type m = .error (.typeError c tys a) →
      List.lookup c COLUMN_SCHEMA = some tys ∧
      ∃ v pre post, (c, v) ∈ m ∧ elemsOf v = pre ++ a :: post ∧
        (∀ b ∈ pre, matchesType b tys = true) ∧ matchesType a tys = false) ∧
    (∀ e, check_input_type m = .error e →
      ∀ t q o, construct_query t m q o = .error e) := by
  refine ⟨?_, ?_, ?_⟩
  · induction m with
    | nil => simp [check_input_type]
    | cons p rest ih =>
      rcases p with ⟨c, v⟩
      have hc := h (c, v) (List.mem_cons_self _ _)
      obtain ⟨tys, hl⟩ := Option.isSome_iff_exists.mp hc
      have hrest := ih (fun p hp => h p (List.mem_cons_of_mem _ hp))
      rw [check_input_type_cons c v rest tys hl]
      by_cases hdv : type_ok c v = true
      · rw [if_pos hdv]
        constructor
        · intro hok p hp
          rcases List.mem_cons.mp hp with rfl | hmem
          · exact hdv
          · exact hrest.mp hok p hmem
        · intro hall
          exact hrest.mpr (fun p hp => hall p (List.mem_cons_of_mem _ hp))
      · rw [if_neg hdv]
        constructor
        · intro hok
          simp at hok
        · intro hall
          exact absurd (hall (c, v) (List.mem_cons_self _ _)) hdv
  · induction m with
    | nil =>
      intro c tys a hcv
      simp [check_input_type] at hcv
    | cons p rest ih =>
      rcases p with ⟨c0, v0⟩
      have hc := h (c0, v0) (List.mem_cons_self _ _)
      obtain ⟨tys0, hl⟩ := Option.isSome_iff_exists.mp hc
      have hrest := ih (fun p hp => h p (List.mem_cons_of_mem _ hp))
      intro c tys a hcv
      rw [check_input_type_cons c0 v0 rest tys0 hl] at hcv
      by_cases hdv : type_ok c0 v0 = true
      · rw [if_pos hdv] at hcv
        obtain ⟨h1, v, pre, post, h2, h3, h4, h5⟩ := hrest c tys a hcv
        exact ⟨h1, v, pre, post, List.mem_cons_of_mem _ h2, h3, h4, h5⟩
      · rw [if_neg hdv] at hcv
        simp only [Except.error.injEq, Err.typeError.injEq] at hcv
        obtain ⟨rfl, rfl, rfl⟩ := hcv
        have hnotall : (elemsOf v0).all (fun s => matchesType s tys0) = false := by
          have := hdv
          simp only [type_ok, hl] at this
          exact Bool.not_eq_true _ ▸ this
        cases hfb : firstBadElem tys0 (elemsOf v0) with
        | none =>
          rw [(firstBadElem_none tys0 _).mp hfb] at hnotall
          cases hnotall
        | some b =>
          obtain ⟨pre, post, h1, h2, h3⟩ := firstBadElem_some tys0 _ b hfb
          exact ⟨hl, v0, pre, post, List.mem_cons_self _ _, h1, h2, h3⟩
  · intro e he t q o
    unfold construct_query
    rw [he]

/-- Witness for C6: a well-typed mapping is accepted. -/
theorem check_input_type_spec_witness :
    check_input_type
      [("season", .scalar (.int 2024)), ("team", .scalar (.str "TOR")),
       ("iceTime", .list [.int 500, .float (1 / 2)])] = .ok true :=
  (check_input_type_spec _ (by decide)).1.mpr (by decide)

/-! ### Claim C8 -/

/-- C8 (counterexample): the draft accessor `skater_summaries`
(`pyhockey/skater_summaries.py`) keeps the `team` key when the sentinel `ALL`
is supplied, and its builder compiles the literal condition `team = 'ALL'`
into the query. -/
theorem draft_accessor_compiles_team_all :
    skater_summaries_draft (.scalar (.int 2024)) (.scalar (.str "ALL"))
      (.scalar (.str "all")) 0 =
    .ok "SELECT * FROM skaters WHERE season = 2024 AND team = 'ALL' AND situation = 'all' AND iceTime >0" ∧
    hasInfix "team = 'ALL'".toList
      "SELECT * FROM skaters WHERE season = 2024 AND team = 'ALL' AND situation = 'all' AND iceTime >0".toList = true := by
  exact ⟨rfl, by decide⟩

set_option maxRecDepth 8192 in
/-- C8 (amended): the finalized accessors (`skater_summary.py`,
`goalie_summary.py`, `team_games.py`) drop the `team` key from the filter
mapping whenever the sentinel `ALL` is supplied, so the query they build
carries no `team` condition; the leftover draft accessor
`skater_summaries.py` instead passes `team` through to its draft builder,
which emits the literal condition `team = 'ALL'`. -/
theorem team_all_sentinel_omits_filter :
    (∀ season situation : QueryValue,
      (skater_summary_mapping season (.scalar (.str "ALL")) situation).map Prod.fst =
        ["season", "situation"]) ∧
    (∀ season situation : QueryValue,
      (goalie_summaries_mapping season (.scalar (.str "ALL")) situation).map Prod.fst =
        ["season", "situation"]) ∧
    (∀ (season : Option QueryValue) (situation : QueryValue),
      ((team_games_column_mapping season (.scalar (.str "ALL")) situation).map
        Prod.fst).contains "team" = false) ∧
    (skater_summary_query (.scalar (.int 2024)) (.scalar (.str "ALL")) 0
        (.scalar (.str "all")) =
      .ok ⟨"SELECT * FROM skaters WHERE season = 2024 AND situation = 'all' AND iceTime >=0 ORDER BY team, season",
        [("season", .scalar (.int 2024)), ("situation", .scalar (.str "all"))], false⟩) ∧
    hasInfix "team = ".toList
      "SELECT * FROM skaters WHERE season = 2024 AND situation = 'all' AND iceTime >=0 ORDER BY team, season".toList = false := by
  refine ⟨fun season situation => rfl, fun season situation => rfl, ?_, rfl, by decide⟩
  intro season situation
  cases season <;> rfl

theorem lookup_eq_none_of_any_false (k : String) :
    ∀ qs : List (String × String),
      qs.any (fun p => p.1 == k) = false → List.lookup k qs = none := by
  intro qs
  induction qs with
  | nil => intro _; rfl
  | cons a rest ih =>
    intro h
    rcases a with ⟨k0, v0⟩
    simp only [List.any_cons, Bool.or_eq_false_iff] at h
    have h1 : (k == k0) = false := by
      rcases h with ⟨h1, _⟩
      simp only [beq_eq_false_iff_ne] at h1 ⊢
      exact fun he => h1 he.symm
    simp only [List.lookup, h1]
    exact ih h.2

theorem validate_date_range_result (m : List (String × QueryValue))
    (qs : List (String × String)) (res : List (String × QueryValue) × Bool)
    (h : validate_date_range_inputs m qs = .ok res) :
    res = if season_dropped m qs then
            (m.filter (fun p => p.1 != "season"), true)
          else (m, false) := by
  unfold validate_date_range_inputs at h
  split at h
  · cases h
  · split at h
    · cases h
    · unfold season_dropped
      split at h
      · rename_i hcond
        rw [if_pos hcond]
        injection h with h'
        exact h'.symm
      · rename_i hcond
        rw [if_neg hcond]
        injection h with h'
        exact h'.symm

/-- C9 (amended): `construct_query` leaves the caller's qualifier mapping
untouched, and leaves the caller's filter mapping unchanged except in one
case — when both `start_date` and `end_date` qualifiers and a truthy `season`
filter are present, the `season` entry is deleted from the caller's mapping
(the date range ignores the season filter). -/
theorem construct_query_final_mapping (t : String)
    (m : List (String × QueryValue)) (q : Option (List (String × String)))
    (o : Option (List String)) (r : QueryResult)
    (h : construct_query t m q o = .ok r) :
    r.column_mapping = final_mapping_spec m q := by
  unfold construct_query at h
  unfold final_mapping_spec
  cases hct : check_input_type m with
  | error e => rw [hct] at h; simp at h
  | ok b1 =>
  rw [hct] at h
  cases hcv : check_input_values m with
  | error e => rw [hcv] at h; simp at h
  | ok b2 =>
  rw [hcv] at h
  cases hmm : m.mapM (fun p => condition_for p.1 p.2) with
  | error e => rw [hmm] at h; simp at h
  | ok conds =>
  rw [hmm] at h
  revert h
  cases q with
  | none =>
    intro h
    have hr := Except.ok.inj h.symm
    rw [hr]
  | some qs =>
    intro h
    dsimp only at h ⊢
    by_cases hemp : qs.isEmpty
    · rw [if_pos hemp] at h
      have hr := Except.ok.inj h.symm
      rw [hr]
      have hqs : qs = [] := List.isEmpty_iff.mp hemp
      subst hqs
      simp [season_dropped, qualifiersGetTruthy, List.lookup]
    · rw [if_neg hemp] at h
      by_cases hdates : (qs.any (fun p => p.1 == "start_date") ||
          qs.any (fun p => p.1 == "end_date")) = true
      · rw [if_pos hdates] at h
        cases hv : validate_date_range_inputs m qs with
        | error e => rw [hv] at h; simp at h
        | ok res =>
          rw [hv] at h
          have hr := Except.ok.inj h.symm
          rw [hr]
          have hres := validate_date_range_result m qs res hv
          by_cases hsd : season_dropped m qs = true
          · rw [if_pos hsd] at hres ⊢
            rw [hres]
          · rw [if_neg hsd] at hres ⊢
            rw [hres]
      · rw [if_neg hdates] at h
        have hr := Except.ok.inj h.symm
        rw [hr]
        have hnos : qs.any (fun p => p.1 == "start_date") = false := by
          rcases Bool.or_eq_false_iff.mp (Bool.not_eq_true _ ▸ hdates) with ⟨h1, _⟩
          exact h1
        have hqt : qualifiersGetTruthy qs "start_date" = false := by
          simp [qualifiersGetTruthy, lookup_eq_none_of_any_false _ qs hnos]
        simp [season_dropped, hqt]

/-- C9 (counterexample): a call in which both date qualifiers and a `season`
filter are present returns with the `season` entry removed from the caller's
filter mapping — the mapping is mutated, not preserved. -/
theorem construct_query_mutates_caller_mapping :
    construct_query "teams"
      [("season", .scalar (.int 2024)), ("situation", .scalar (.str "all"))]
      (some [("start_date", "2024-01-01"), ("end_date", "2024-02-01")]) none =
    .ok ⟨"SELECT * FROM teams WHERE season = 2024 AND situation = 'all' AND gameDate >= '2024-01-01' AND gameDate <= '2024-02-01'",
      [("situation", .scalar (.str "all"))], true⟩ ∧
    decide (([("situation", QueryValue.scalar (.str "all"))] : List (String × QueryValue)) =
      [("season", .scalar (.int 2024)), ("situation", .scalar (.str "all"))]) = false := by
  exact ⟨rfl, by decide⟩

/-- Witness for the amended C9 at a concrete call. -/
theorem construct_query_final_mapping_witness :
    ([("situation", QueryValue.scalar (.str "all"))] : List (String × QueryValue)) =
      final_mapping_spec
        [("season", .scalar (.int 2024)), ("situation", .scalar (.str "all"))]
        (some [("start_date", "2024-01-01"), ("end_date", "2024-02-01")]) :=
  construct_query_final_mapping "teams"
    [("season", .scalar (.int 2024)), ("situation", .scalar (.str "all"))]
    (some [("start_date", "2024-01-01"), ("end_date", "2024-02-01")]) none
    ⟨"SELECT * FROM teams WHERE season = 2024 AND situation = 'all' AND gameDate >= '2024-01-01' AND gameDate <= '2024-02-01'",
      [("situation", .scalar (.str "all"))], true⟩ (by rfl)
